import Mathlib

/-!
Verification of the document question-answering app (two source variants,
app.py targeting a local Ollama server and app_api.py targeting a hosted
OpenRouter endpoint).  The Python functions are shallowly embedded:
string helpers mirror the Python string methods used by the code,
the external parsing libraries (pypdf, python-docx, BeautifulSoup) are
modelled as per-file oracle fields recording their result on the file's
bytes, and the HTTP layer is modelled as a function from the request that
would be sent to an abstract outcome.  Exceptions are modelled with
Except: a value Except.error e means the Python code raises an exception
whose message is e.
-/

/-- Python str.isspace for a single character (the character classes the
CPython implementation treats as whitespace). -/
def pyIsSpace (c : Char) : Bool :=
  c == ' ' || c == '\t' || c == '\n' || c == '\r' || c == '\x0b' || c == '\x0c' ||
  c == '\x1c' || c == '\x1d' || c == '\x1e' || c == '\x1f' || c == '\x85' || c == '\xa0' ||
  c == '\u1680' || (decide ('\u2000' ≤ c) && decide (c ≤ '\u200A')) ||
  c == '\u2028' || c == '\u2029' || c == '\u202F' || c == '\u205F' || c == '\u3000'

/-- Python str.strip(): remove leading and trailing whitespace. -/
def pyStrip (s : String) : String :=
  String.mk (((s.data.dropWhile pyIsSpace).reverse.dropWhile pyIsSpace).reverse)

/-- Python str.lower() (ASCII case folding, sufficient for the file names
the dispatcher inspects). -/
def pyLower (s : String) : String :=
  String.mk (s.data.map Char.toLower)

/-- Python str.endswith(p). -/
def pyEndsWith (s p : String) : Bool :=
  decide (p.data <:+ s.data)

/-- Python str.startswith(p). -/
def pyStartsWith (s p : String) : Bool :=
  decide (p.data <+: s.data)

/-- Python substring membership, sub in s. -/
def pyContains (s sub : String) : Bool :=
  decide (sub.data <:+: s.data)

/-- JSON values, as built for the request body and returned by
response.json(). -/
inductive Json where
  | null : Json
  | bool (b : Bool) : Json
  | num (q : Rat) : Json
  | str (s : String) : Json
  | arr (elems : List Json) : Json
  | obj (fields : List (String × Json)) : Json

/-- Model of one uploaded file: its name together with the results the
external libraries produce on its byte content.  Two calls on the same
file therefore see the same results.
  - textDecodeUtf8: bytes.decode("utf-8", errors="ignore"), which is total;
  - pdfParse: the pypdf result, either a raised parse exception or the
    list of page.extract_text() values in page order (an image-only page
    contributes the empty string);
  - docxParse: the python-docx result, either a raised exception or the
    paragraph texts in document order;
  - htmlText: BeautifulSoup(decoded, "html.parser").get_text(separator="\n"),
    which is total on arbitrary input. -/
structure FileModel where
  name : String
  textDecodeUtf8 : String
  pdfParse : Except String (List String)
  docxParse : Except String (List String)
  htmlText : String

/-- get_file_text from app.py (lines 8-46).  The .txt branch's bare
except is dead code for byte input because decode(..., errors="ignore")
never raises, so the branch returns the UTF-8 best-effort decoding.
The PDF branch skips falsy (empty) page texts and appends a newline
after each kept page; the DOCX branch appends a newline after every
paragraph; PdfReader and Document failures propagate as exceptions. -/
def get_file_text_app (uploaded_file : Option FileModel) : Except String String :=
  match uploaded_file with
  | none => Except.ok ""
  | some f =>
    let name := pyLower f.name
    if pyEndsWith name ".txt" then
      Except.ok f.textDecodeUtf8
    else if pyEndsWith name ".pdf" then
      match f.pdfParse with
      | Except.error e => Except.error e
      | Except.ok pages =>
          Except.ok (pages.foldl
            (fun text page_text =>
              if page_text ≠ "" then text ++ page_text ++ "\n" else text) "")
    else if pyEndsWith name ".docx" then
      match f.docxParse with
      | Except.error e => Except.error e
      | Except.ok paras =>
          Except.ok (paras.foldl (fun text p => text ++ p ++ "\n") "")
    else if pyEndsWith name ".html" || pyEndsWith name ".htm" then
      Except.ok f.htmlText
    else
      Except.ok f.textDecodeUtf8

/-- get_file_text from app_api.py (lines 13-58).  The .txt and .html
branches' AttributeError fallbacks are dead code for byte input; the PDF
branch maps extract_text() through (or "") and joins with "\n".join, the
DOCX branch joins paragraph texts with "\n".join; PdfReader and Document
failures propagate as exceptions; unknown extensions yield a placeholder
naming the file (original case). -/
def get_file_text_api (uploaded_file : Option FileModel) : Except String String :=
  match uploaded_file with
  | none => Except.ok ""
  | some f =>
    let name := pyLower f.name
    if pyEndsWith name ".txt" then
      Except.ok f.textDecodeUtf8
    else if pyEndsWith name ".pdf" then
      match f.pdfParse with
      | Except.error e => Except.error e
      | Except.ok pages => Except.ok (String.intercalate "\n" pages)
    else if pyEndsWith name ".docx" then
      match f.docxParse with
      | Except.error e => Except.error e
      | Except.ok paras => Except.ok (String.intercalate "\n" paras)
    else if pyEndsWith name ".html" || pyEndsWith name ".htm" then
      Except.ok f.htmlText
    else
      Except.ok ("[Unsupported file type for " ++ f.name ++ "]")

/-- The system message of app.py (lines 50-53). -/
def systemMessageApp : String :=
  "You are a helpful assistant. Use the document context if it helps. " ++
  "If you don't know from the context, say you don't know."

/-- The system message of app_api.py (line 104). -/
def systemMessageApi : String :=
  "You are a helpful assistant."

/-- User-message composition of app.py (lines 55-58). -/
def userMessageApp (question context : String) : String :=
  if pyStrip context ≠ "" then
    "Context:\n" ++ context ++ "\n\nQuestion: " ++ question
  else
    question

/-- User-message composition of app_api.py (lines 96-99); the f-string
produces the same characters as app.py's concatenation. -/
def userMessageApi (question context : String) : String :=
  if pyStrip context ≠ "" then
    "Context:\n" ++ context ++ "\n\nQuestion: " ++ question
  else
    question

/-- The request body dict of app.py (lines 60-67). -/
def requestDataApp (model_name question context : String) : Json :=
  Json.obj
    [("model", Json.str model_name),
     ("messages", Json.arr
        [Json.obj [("role", Json.str "system"), ("content", Json.str systemMessageApp)],
         Json.obj [("role", Json.str "user"),
                   ("content", Json.str (userMessageApp question context))]]),
     ("stream", Json.bool false)]

/-- The request body dict of app_api.py (lines 101-108). -/
def requestDataApi (model_name question context : String) : Json :=
  Json.obj
    [("model", Json.str model_name),
     ("messages", Json.arr
        [Json.obj [("role", Json.str "system"), ("content", Json.str systemMessageApi)],
         Json.obj [("role", Json.str "user"),
                   ("content", Json.str (userMessageApi question context))]]),
     ("temperature", Json.num (2 / 10))]

/-- Field lookup in a JSON object (none when absent or not an object);
a pure observation used to state properties of request bodies. -/
def Json.getField (j : Json) (key : String) : Option Json :=
  match j with
  | Json.obj fields => fields.lookup key
  | _ => none

/-- Read one chat turn as a (role, content) pair of strings. -/
def msgTurn (j : Json) : Option (String × String) :=
  match j.getField "role", j.getField "content" with
  | some (Json.str r), some (Json.str c) => some (r, c)
  | _, _ => none

/-- The list of (role, content) turns of a request body. -/
def msgTurns (body : Json) : Option (List (String × String)) :=
  match body.getField "messages" with
  | some (Json.arr ms) => ms.mapM msgTurn
  | _ => none

/-- The content of the user turn (second message) of a request body. -/
def userContent (body : Json) : Option String :=
  match body.getField "messages" with
  | some (Json.arr ms) =>
      match ms.get? 1 with
      | some m =>
          match m.getField "content" with
          | some (Json.str s) => some s
          | _ => none
      | none => none
  | _ => none

/-- Python dict.get(key, default): AttributeError when the receiver is
not a dict. -/
def jsonGetD (j : Json) (key : String) (dflt : Json) : Except String Json :=
  match j with
  | Json.obj fields =>
      match fields.lookup key with
      | some v => Except.ok v
      | none => Except.ok dflt
  | _ => Except.error ("AttributeError: object has no attribute get (key " ++ key ++ ")")

/-- Python j[key] subscription with a string key: KeyError when a dict
lacks the key, TypeError when the receiver is not a dict. -/
def jsonIndexStr (j : Json) (key : String) : Except String Json :=
  match j with
  | Json.obj fields =>
      match fields.lookup key with
      | some v => Except.ok v
      | none => Except.error ("KeyError: " ++ key)
  | _ => Except.error ("TypeError: indices must be integers (key " ++ key ++ ")")

/-- Python j[i] subscription with an integer index: IndexError out of
range on lists and strings (a string yields its i-th character as a
one-character string), TypeError otherwise. -/
def jsonIndexNat (j : Json) (i : Nat) : Except String Json :=
  match j with
  | Json.arr elems =>
      match elems.get? i with
      | some v => Except.ok v
      | none => Except.error "IndexError: list index out of range"
  | Json.str s =>
      match s.data.get? i with
      | some c => Except.ok (Json.str (String.mk [c]))
      | none => Except.error "IndexError: string index out of range"
  | _ => Except.error "TypeError: object is not subscriptable"

/-- Outcome of requests.post as observed by the caller: either the call
itself raises (network error, timeout), or a response arrives carrying a
status code and a body whose JSON decoding either fails or yields a
value. -/
inductive HttpOutcome where
  | netError (detail : String) : HttpOutcome
  | response (status : Nat) (body : Except String Json) : HttpOutcome

/-- requests.Response.raise_for_status(): raises HTTPError exactly for
status codes 400-599. -/
def raiseForStatus (status : Nat) : Except String Unit :=
  if 400 ≤ status ∧ status < 600 then
    Except.error ("HTTPError: status " ++ toString status)
  else
    Except.ok ()

/-- An outcome on which the HTTP call fails: the post raised, the status
is non-2xx (4xx/5xx), or the body is not valid JSON. -/
def HttpOutcome.isFailure : HttpOutcome → Bool
  | HttpOutcome.netError _ => true
  | HttpOutcome.response status body =>
      decide (400 ≤ status ∧ status < 600) ||
      (match body with
       | Except.error _ => true
       | Except.ok _ => false)

/-- The try-block of app.py's ask_ollama (lines 70-74) after the post:
raise_for_status, response.json(), then
json_data.get("message", {}).get("content", ""). -/
def askTryApp (outcome : HttpOutcome) : Except String Json :=
  match outcome with
  | HttpOutcome.netError detail => Except.error detail
  | HttpOutcome.response status body => do
      let _ ← raiseForStatus status
      let json_data ← body
      let msg ← jsonGetD json_data "message" (Json.obj [])
      jsonGetD msg "content" (Json.str "")

/-- ask_ollama from app.py (lines 48-76).  net models the network: the
outcome of posting the given request body.  Any exception inside the try
becomes the string "Error talking to Ollama: <detail>". -/
def askOllamaApp (model_name question context : String) (net : Json → HttpOutcome) : Json :=
  let data := requestDataApp model_name question context
  match askTryApp (net data) with
  | Except.ok answer => answer
  | Except.error e => Json.str ("Error talking to Ollama: " ++ e)

/-- Truthiness test applied to the api_key variable of app_api.py:
None and the empty string are falsy. -/
def pyFalsyKey : Option String → Bool
  | none => true
  | some s => s == ""

/-- Credential resolution of app_api.py (lines 74-84): st.secrets first
(none models both an absent key and st.secrets itself raising, which the
code swallows), then the environment variable; a falsy result at the end
means no credential. -/
def resolveKey (secrets envKey : Option String) : Option String :=
  let api_key := secrets
  let api_key := if pyFalsyKey api_key then envKey else api_key
  if pyFalsyKey api_key then none else api_key

/-- The missing-credential message of app_api.py (lines 86-91). -/
def keyErrMsgApi : String :=
  "Error: No OpenRouter API key found.\n\n" ++
  "Set OPENROUTER_API_KEY in your environment, or add it to " ++
  "Streamlit secrets as OPENROUTER_API_KEY."

/-- The try-block of app_api.py's ask_ollama (lines 117-120) after the
post: raise_for_status, response.json(), then
json_data["choices"][0]["message"]["content"]. -/
def askTryApi (outcome : HttpOutcome) : Except String Json :=
  match outcome with
  | HttpOutcome.netError detail => Except.error detail
  | HttpOutcome.response status body => do
      let _ ← raiseForStatus status
      let json_data ← body
      let choices ← jsonIndexStr json_data "choices"
      let first ← jsonIndexNat choices 0
      let msg ← jsonIndexStr first "message"
      jsonIndexStr msg "content"

/-- ask_ollama from app_api.py (lines 64-122).  secrets and envKey model
the two credential sources; net models the network, fed the bearer key
(carried in the Authorization header) and the request body.  Any
exception inside the try becomes the string
"Error calling hosted LLM API: <detail>". -/
def askOllamaApi (model_name question context : String)
    (secrets envKey : Option String) (net : String → Json → HttpOutcome) : Json :=
  match resolveKey secrets envKey with
  | none => Json.str keyErrMsgApi
  | some api_key =>
      let data := requestDataApi model_name question context
      match askTryApi (net api_key data) with
      | Except.ok answer => answer
      | Except.error e => Json.str ("Error calling hosted LLM API: " ++ e)

/-- The request body app.py's ask_ollama sends (it always posts). -/
def bodySentApp (model_name question context : String) : Json :=
  requestDataApp model_name question context

/-- The request body app_api.py's ask_ollama sends: none when the
missing-credential early return fires before any network activity. -/
def bodySentApi (model_name question context : String)
    (secrets envKey : Option String) : Option Json :=
  match resolveKey secrets envKey with
  | none => none
  | some _ => some (requestDataApi model_name question context)

/-- Context assembly of app.py's main (lines 93-97): for each uploaded
file in order, append "\n--- <name> ---\n" and the extracted text. -/
def buildContextApp (files : List FileModel) : Except String String :=
  files.foldlM
    (fun context f => do
      let text ← get_file_text_app (some f)
      pure (context ++ "\n--- " ++ f.name ++ " ---\n" ++ text)) ""

/-- Context assembly of app_api.py's main (lines 184-188): for each
uploaded file in order, append "\n\n--- <name> ---\n" and the extracted
text. -/
def buildContextApi (files : List FileModel) : Except String String :=
  files.foldlM
    (fun context f => do
      let text ← get_file_text_api (some f)
      pure (context ++ "\n\n--- " ++ f.name ++ " ---\n" ++ text)) ""

/-- The extracted text of a file when extraction succeeds, "" otherwise;
used to state what the assembled context contains. -/
def getTextDApp (f : FileModel) : String :=
  match get_file_text_app (some f) with
  | Except.ok t => t
  | Except.error _ => ""

/-- The extracted text of a file under the app_api.py extractor when
extraction succeeds, "" otherwise. -/
def getTextDApi (f : FileModel) : String :=
  match get_file_text_api (some f) with
  | Except.ok t => t
  | Except.error _ => ""

/-- The labelled context segment one file contributes in app.py. -/
def segApp (f : FileModel) : String :=
  "\n--- " ++ f.name ++ " ---\n" ++ getTextDApp f

/-- The labelled context segment one file contributes in app_api.py. -/
def segApi (f : FileModel) : String :=
  "\n\n--- " ++ f.name ++ " ---\n" ++ getTextDApi f

/-- True when the computation returned normally (no exception). -/
def exceptOk {α : Type} (r : Except String α) : Bool :=
  match r with
  | Except.ok _ => true
  | Except.error _ => false

/-- True when the value is a string starting with the given text; used to
state that an ask result is an error string of the documented shape. -/
def errorStringFrom (j : Json) (p : String) : Bool :=
  match j with
  | Json.str s => pyStartsWith s p
  | _ => false

/-- Declarative form of app.py's PDF page accumulation: each non-empty
page text in page order, each followed by a newline. -/
def pdfTextApp : List String → String
  | [] => ""
  | t :: ts => if t ≠ "" then t ++ "\n" ++ pdfTextApp ts else pdfTextApp ts

/-- Declarative form of app.py's DOCX paragraph accumulation: every
paragraph text in document order, each followed by a newline. -/
def docxTextApp : List String → String
  | [] => ""
  | t :: ts => t ++ "\n" ++ docxTextApp ts

/-- A plain text file a.txt whose bytes decode to "X". -/
def fileTxtA : FileModel :=
  { name := "a.txt", textDecodeUtf8 := "X",
    pdfParse := Except.error "PdfReadError: EOF marker not found",
    docxParse := Except.error "BadZipFile: File is not a zip file",
    htmlText := "X" }

/-- A plain text file b.txt whose bytes decode to "Y". -/
def fileTxtB : FileModel :=
  { name := "b.txt", textDecodeUtf8 := "Y",
    pdfParse := Except.error "PdfReadError: EOF marker not found",
    docxParse := Except.error "BadZipFile: File is not a zip file",
    htmlText := "Y" }

/-- A well-formed single-page PDF whose page text is "A". -/
def filePdfA : FileModel :=
  { name := "doc.pdf", textDecodeUtf8 := "%PDF-1.4 ...",
    pdfParse := Except.ok ["A"],
    docxParse := Except.error "BadZipFile: File is not a zip file",
    htmlText := "%PDF-1.4 ..." }

/-- A well-formed three-page PDF with an image-only (empty-text) middle
page. -/
def filePdf3 : FileModel :=
  { name := "tri.pdf", textDecodeUtf8 := "%PDF-1.4 ...",
    pdfParse := Except.ok ["P1", "", "P3"],
    docxParse := Except.error "BadZipFile: File is not a zip file",
    htmlText := "%PDF-1.4 ..." }

/-- A file named broken.pdf whose bytes pypdf rejects. -/
def filePdfBad : FileModel :=
  { name := "broken.pdf", textDecodeUtf8 := "not a pdf",
    pdfParse := Except.error "PdfReadError: EOF marker not found",
    docxParse := Except.error "BadZipFile: File is not a zip file",
    htmlText := "not a pdf" }

/-- A well-formed DOCX with paragraphs "Hello" and "World". -/
def fileDocxHW : FileModel :=
  { name := "d.docx", textDecodeUtf8 := "PK...",
    pdfParse := Except.error "PdfReadError: EOF marker not found",
    docxParse := Except.ok ["Hello", "World"],
    htmlText := "PK..." }

/-! ### Helper lemmas -/

theorem suffix_of_pyEndsWith {s p : String} (h : pyEndsWith s p = true) :
    p.data <:+ s.data := by
  unfold pyEndsWith at h
  exact of_decide_eq_true h

theorem getLast_of_pyEndsWith {s p : String} (h : pyEndsWith s p = true)
    (hp : p.data ≠ []) : s.data.getLast? = p.data.getLast? := by
  obtain ⟨t, ht⟩ := suffix_of_pyEndsWith h
  rw [← ht]
  exact List.getLast?_append_of_ne_nil t hp

theorem pyEndsWith_eq_false_of_last_ne (s p q : String) (a b : Char)
    (hp : p.data.getLast? = some a) (hq : q.data.getLast? = some b)
    (hne : a ≠ b) (h : pyEndsWith s p = true) : pyEndsWith s q = false := by
  cases hqe : pyEndsWith s q with
  | false => rfl
  | true =>
    exfalso
    have hpn : p.data ≠ [] := by intro hnil; rw [hnil] at hp; simp at hp
    have hqn : q.data ≠ [] := by intro hnil; rw [hnil] at hq; simp at hq
    have h1 := getLast_of_pyEndsWith h hpn
    have h2 := getLast_of_pyEndsWith hqe hqn
    rw [hp] at h1
    rw [hq] at h2
    rw [h1] at h2
    exact hne (Option.some.inj h2)

theorem pyStartsWith_append (p d : String) : pyStartsWith (p ++ d) p = true := by
  unfold pyStartsWith
  exact decide_eq_true ⟨d.data, by simp⟩

theorem string_foldl_append (xs : List String) (acc : String) :
    xs.foldl (fun r s => r ++ s) acc = acc ++ xs.foldl (fun r s => r ++ s) "" := by
  induction xs generalizing acc with
  | nil => simp
  | cons y ys ih =>
    rw [List.foldl_cons, List.foldl_cons, ih (acc ++ y), ih ("" ++ y)]
    rw [String.empty_append, String.append_assoc]

theorem string_join_cons (x : String) (xs : List String) :
    String.join (x :: xs) = x ++ String.join xs := by
  show (x :: xs).foldl (fun r s => r ++ s) "" = x ++ xs.foldl (fun r s => r ++ s) ""
  rw [List.foldl_cons, string_foldl_append, String.empty_append]

theorem foldl_pdf_eq (l : List String) (acc : String) :
    l.foldl (fun text page_text =>
      if page_text ≠ "" then text ++ page_text ++ "\n" else text) acc
      = acc ++ pdfTextApp l := by
  induction l generalizing acc with
  | nil => simp [pdfTextApp]
  | cons t ts ih =>
    simp only [List.foldl_cons]
    by_cases ht : t = ""
    · rw [if_neg (by simp [ht]), ih]
      have hp : pdfTextApp (t :: ts) = pdfTextApp ts := by
        simp [pdfTextApp, ht]
      rw [hp]
    · rw [if_pos ht, ih]
      have hp : pdfTextApp (t :: ts) = t ++ "\n" ++ pdfTextApp ts := by
        simp [pdfTextApp, ht]
      rw [hp]
      simp [String.append_assoc]

theorem foldl_pdf_eq_flip (l : List String) (acc : String) :
    l.foldl (fun text page_text =>
      if page_text = "" then text else text ++ page_text ++ "\n") acc
      = acc ++ pdfTextApp l := by
  have hfun : (fun (text page_text : String) =>
      if page_text = "" then text else text ++ page_text ++ "\n")
      = (fun (text page_text : String) =>
      if page_text ≠ "" then text ++ page_text ++ "\n" else text) := by
    funext text page_text
    by_cases hp : page_text = "" <;> simp [hp]
  rw [hfun, foldl_pdf_eq]

theorem foldl_docx_eq (l : List String) (acc : String) :
    l.foldl (fun text p => text ++ p ++ "\n") acc = acc ++ docxTextApp l := by
  induction l generalizing acc with
  | nil => simp [docxTextApp]
  | cons t ts ih =>
    simp only [List.foldl_cons]
    rw [ih]
    have hp : docxTextApp (t :: ts) = t ++ "\n" ++ docxTextApp ts := by
      simp [docxTextApp]
    rw [hp]
    simp [String.append_assoc]

theorem buildContextApp_go (l : List FileModel) :
    ∀ acc : String, (∀ f ∈ l, exceptOk (get_file_text_app (some f)) = true) →
    List.foldlM (fun context f => do
        let text ← get_file_text_app (some f)
        pure (context ++ "\n--- " ++ f.name ++ " ---\n" ++ text)) acc l
      = Except.ok (acc ++ String.join (l.map segApp)) := by
  induction l with
  | nil => intro acc h; simp [String.join]; rfl
  | cons f fs ih =>
    intro acc h
    have hf : exceptOk (get_file_text_app (some f)) = true := h f (List.mem_cons_self f fs)
    cases hft : get_file_text_app (some f) with
    | error e => rw [hft] at hf; simp [exceptOk] at hf
    | ok t =>
      rw [List.foldlM_cons, hft]
      show List.foldlM _ (acc ++ "\n--- " ++ f.name ++ " ---\n" ++ t) fs = _
      rw [ih _ (fun g hg => h g (List.mem_cons_of_mem f hg))]
      simp [segApp, getTextDApp, hft, string_join_cons, String.append_assoc]

theorem buildContextApi_go (l : List FileModel) :
    ∀ acc : String, (∀ f ∈ l, exceptOk (get_file_text_api (some f)) = true) →
    List.foldlM (fun context f => do
        let text ← get_file_text_api (some f)
        pure (context ++ "\n\n--- " ++ f.name ++ " ---\n" ++ text)) acc l
      = Except.ok (acc ++ String.join (l.map segApi)) := by
  induction l with
  | nil => intro acc h; simp [String.join]; rfl
  | cons f fs ih =>
    intro acc h
    have hf : exceptOk (get_file_text_api (some f)) = true := h f (List.mem_cons_self f fs)
    cases hft : get_file_text_api (some f) with
    | error e => rw [hft] at hf; simp [exceptOk] at hf
    | ok t =>
      rw [List.foldlM_cons, hft]
      show List.foldlM _ (acc ++ "\n\n--- " ++ f.name ++ " ---\n" ++ t) fs = _
      rw [ih _ (fun g hg => h g (List.mem_cons_of_mem f hg))]
      simp [segApi, getTextDApi, hft, string_join_cons, String.append_assoc]

/-! ### Claim theorems -/

/-- C3: for every model, question and context, the user message in the
request body built by both ask_ollama variants equals
"Context:\n{context}\n\nQuestion: {question}" when the context is
non-empty after trimming whitespace, and the question verbatim (no
"Context:" prefix) otherwise. -/
theorem user_message_composition (m q c : String) :
    userContent (requestDataApp m q c) =
      some (if pyStrip c ≠ "" then
              "Context:\n" ++ c ++ "\n\nQuestion: " ++ q
            else q) ∧
    userContent (requestDataApi m q c) =
      some (if pyStrip c ≠ "" then
              "Context:\n" ++ c ++ "\n\nQuestion: " ++ q
            else q) :=
  ⟨rfl, rfl⟩

set_option maxRecDepth 8192 in
/-- C7 (amended): both variants build exactly two turns, the system
instruction then the composed user message; app.py's system instruction
mentions using the context and admitting lack of knowledge, while
app_api.py's is only "You are a helpful assistant.". -/
theorem request_has_two_turns (m q c : String) :
    msgTurns (requestDataApp m q c) =
      some [("system", systemMessageApp), ("user", userMessageApp q c)] ∧
    msgTurns (requestDataApi m q c) =
      some [("system", "You are a helpful assistant."), ("user", userMessageApi q c)] ∧
    pyContains systemMessageApp "context" = true ∧
    pyContains systemMessageApp "don't know" = true :=
  ⟨rfl, rfl, by decide, by decide⟩

/-- C7: counterexample — app_api.py's system instruction is exactly
"You are a helpful assistant.", which states neither that the context
should be used if available nor that lack of knowledge should be
admitted. -/
theorem api_system_message_lacks_guidance :
    msgTurns (requestDataApi "meta-llama/llama-3.1-8b-instruct" "q" "c") =
      some [("system", "You are a helpful assistant."),
            ("user", "Context:\nc\n\nQuestion: q")] ∧
    pyContains "You are a helpful assistant." "context" = false ∧
    pyContains "You are a helpful assistant." "know" = false :=
  ⟨rfl, by decide, by decide⟩

/-- C5 (amended): for a .pdf file whose pages parse to texts l,
app_api.py's get_file_text returns the page texts joined by newline
separators in page order (as the claim states, empty page texts giving
empty segments), but app.py's get_file_text returns each non-empty page
text followed by a newline, concatenated in page order — a trailing
newline, with empty pages dropped. -/
theorem pdf_extraction_amended (f : FileModel) (l : List String)
    (h : pyEndsWith (pyLower f.name) ".pdf" = true)
    (hp : f.pdfParse = Except.ok l) :
    get_file_text_api (some f) = Except.ok (String.intercalate "\n" l) ∧
    get_file_text_app (some f) = Except.ok (pdfTextApp l) := by
  have htxt : pyEndsWith (pyLower f.name) ".txt" = false :=
    pyEndsWith_eq_false_of_last_ne (pyLower f.name) ".pdf" ".txt" 'f' 't'
      (by decide) (by decide) (by decide) h
  constructor
  · simp [get_file_text_api, htxt, h, hp]
  · simp [get_file_text_app, htxt, h, hp, foldl_pdf_eq_flip]

/-- C5 witness: the three-page PDF with page texts ["P1", "", "P3"]. -/
theorem pdf_extraction_amended_witness :
    get_file_text_api (some filePdf3) = Except.ok "P1\n\nP3" ∧
    get_file_text_app (some filePdf3) = Except.ok "P1\nP3\n" :=
  pdf_extraction_amended filePdf3 ["P1", "", "P3"] (by decide) rfl

/-- C5: counterexample — for a single-page PDF with page text "A",
app.py's get_file_text returns "A\n", not the newline-join "A" that the
claim requires for N = 1. -/
theorem pdf_app_trailing_newline :
    get_file_text_app (some filePdfA) = Except.ok "A\n" ∧
    "A\n" ≠ "A" :=
  ⟨rfl, by decide⟩

/-- C6 (amended): for a .docx file whose paragraphs parse to texts l,
app_api.py's get_file_text returns the paragraph texts joined with
newline separators, but app.py's get_file_text returns every paragraph
text followed by a newline, concatenated in document order — a trailing
newline. -/
theorem docx_extraction_amended (f : FileModel) (l : List String)
    (h : pyEndsWith (pyLower f.name) ".docx" = true)
    (hp : f.docxParse = Except.ok l) :
    get_file_text_api (some f) = Except.ok (String.intercalate "\n" l) ∧
    get_file_text_app (some f) = Except.ok (docxTextApp l) := by
  have htxt : pyEndsWith (pyLower f.name) ".txt" = false :=
    pyEndsWith_eq_false_of_last_ne (pyLower f.name) ".docx" ".txt" 'x' 't'
      (by decide) (by decide) (by decide) h
  have hpdf : pyEndsWith (pyLower f.name) ".pdf" = false :=
    pyEndsWith_eq_false_of_last_ne (pyLower f.name) ".docx" ".pdf" 'x' 'f'
      (by decide) (by decide) (by decide) h
  constructor
  · simp [get_file_text_api, htxt, hpdf, h, hp]
  · simp [get_file_text_app, htxt, hpdf, h, hp, foldl_docx_eq]

/-- C6 witness: the DOCX with paragraphs ["Hello", "World"]. -/
theorem docx_extraction_amended_witness :
    get_file_text_api (some fileDocxHW) = Except.ok "Hello\nWorld" ∧
    get_file_text_app (some fileDocxHW) = Except.ok "Hello\nWorld\n" :=
  docx_extraction_amended fileDocxHW ["Hello", "World"] (by decide) rfl

/-- C6: counterexample — for the DOCX with paragraphs
["Hello", "World"], app.py's get_file_text returns "Hello\nWorld\n",
not the "Hello\nWorld" the claim requires (app_api.py does return it). -/
theorem docx_app_trailing_newline :
    get_file_text_app (some fileDocxHW) = Except.ok "Hello\nWorld\n" ∧
    "Hello\nWorld\n" ≠ "Hello\nWorld" :=
  ⟨rfl, by decide⟩

/-- C10: for every file whose lower-cased name ends in .txt, .html or
.htm, the two variants' extractors return the same result on the same
name and byte content (both the UTF-8 best-effort decoding for .txt, and
the parsed visible text for .html/.htm). -/
theorem extractors_agree_txt_html (f : FileModel)
    (h : (pyEndsWith (pyLower f.name) ".txt" ||
          pyEndsWith (pyLower f.name) ".html" ||
          pyEndsWith (pyLower f.name) ".htm") = true) :
    get_file_text_app (some f) = get_file_text_api (some f) := by
  rw [Bool.or_eq_true, Bool.or_eq_true] at h
  rcases h with (htxt | hhtml) | hhtm
  · simp [get_file_text_app, get_file_text_api, htxt]
  · have htxt := pyEndsWith_eq_false_of_last_ne (pyLower f.name) ".html" ".txt" 'l' 't'
      (by decide) (by decide) (by decide) hhtml
    have hpdf := pyEndsWith_eq_false_of_last_ne (pyLower f.name) ".html" ".pdf" 'l' 'f'
      (by decide) (by decide) (by decide) hhtml
    have hdocx := pyEndsWith_eq_false_of_last_ne (pyLower f.name) ".html" ".docx" 'l' 'x'
      (by decide) (by decide) (by decide) hhtml
    simp [get_file_text_app, get_file_text_api, htxt, hpdf, hdocx, hhtml]
  · have htxt := pyEndsWith_eq_false_of_last_ne (pyLower f.name) ".htm" ".txt" 'm' 't'
      (by decide) (by decide) (by decide) hhtm
    have hpdf := pyEndsWith_eq_false_of_last_ne (pyLower f.name) ".htm" ".pdf" 'm' 'f'
      (by decide) (by decide) (by decide) hhtm
    have hdocx := pyEndsWith_eq_false_of_last_ne (pyLower f.name) ".htm" ".docx" 'm' 'x'
      (by decide) (by decide) (by decide) hhtm
    simp [get_file_text_app, get_file_text_api, htxt, hpdf, hdocx, hhtm]

/-- C10 witness: the extractors agree on the text file a.txt. -/
theorem extractors_agree_txt_html_witness :
    get_file_text_app (some fileTxtA) = get_file_text_api (some fileTxtA) :=
  extractors_agree_txt_html fileTxtA (by decide)

theorem except_bind_ok {α β : Type} (a : α) (g : α → Except String β) :
    (Except.ok a : Except String α) >>= g = g a := rfl

theorem except_bind_error {α β : Type} (d : String) (g : α → Except String β) :
    (Except.error d : Except String α) >>= g = (Except.error d : Except String β) := rfl

theorem raiseForStatus_error (st : Nat) (hr : 400 ≤ st ∧ st < 600) :
    raiseForStatus st = Except.error ("HTTPError: status " ++ toString st) := by
  unfold raiseForStatus
  rw [if_pos hr]

theorem raiseForStatus_ok (st : Nat) (hr : ¬(400 ≤ st ∧ st < 600)) :
    raiseForStatus st = Except.ok () := by
  unfold raiseForStatus
  rw [if_neg hr]

theorem askTry_status_error (st : Nat) (body : Except String Json)
    (hr : 400 ≤ st ∧ st < 600) :
    askTryApp (HttpOutcome.response st body) =
      Except.error ("HTTPError: status " ++ toString st) ∧
    askTryApi (HttpOutcome.response st body) =
      Except.error ("HTTPError: status " ++ toString st) := by
  constructor <;>
    simp only [askTryApp, askTryApi, raiseForStatus_error st hr, except_bind_error]

theorem askTry_body_error (st : Nat) (d : String) (hr : ¬(400 ≤ st ∧ st < 600)) :
    askTryApp (HttpOutcome.response st (Except.error d)) = Except.error d ∧
    askTryApi (HttpOutcome.response st (Except.error d)) = Except.error d := by
  constructor <;>
    simp only [askTryApp, askTryApi, raiseForStatus_ok st hr, except_bind_ok,
      except_bind_error]

theorem askTryApi_missing_choices (st : Nat) (fs : List (String × Json))
    (hr : ¬(400 ≤ st ∧ st < 600)) (hl : fs.lookup "choices" = none) :
    askTryApi (HttpOutcome.response st (Except.ok (Json.obj fs))) =
      Except.error "KeyError: choices" := by
  simp only [askTryApi, raiseForStatus_ok st hr, except_bind_ok, jsonIndexStr, hl,
    except_bind_error]
  rfl

theorem askOllamaApp_of_tryError (m q c d : String) (net : Json → HttpOutcome)
    (h : askTryApp (net (requestDataApp m q c)) = Except.error d) :
    askOllamaApp m q c net = Json.str ("Error talking to Ollama: " ++ d) := by
  simp only [askOllamaApp, h]

theorem askOllamaApp_of_tryOk (m q c : String) (a : Json) (net : Json → HttpOutcome)
    (h : askTryApp (net (requestDataApp m q c)) = Except.ok a) :
    askOllamaApp m q c net = a := by
  simp only [askOllamaApp, h]

theorem askOllamaApi_of_tryError (m q c k d : String) (s v : Option String)
    (net : String → Json → HttpOutcome) (hk : resolveKey s v = some k)
    (h : askTryApi (net k (requestDataApi m q c)) = Except.error d) :
    askOllamaApi m q c s v net = Json.str ("Error calling hosted LLM API: " ++ d) := by
  simp only [askOllamaApi, hk, h]

/-- C1 (amended): get_file_text returns a string (raises nothing) on
.txt, .html, .htm and unknown-extension inputs of arbitrary byte
content, and on .pdf and .docx inputs whenever the external parser
succeeds; but a PdfReader or Document parse exception propagates to the
caller — neither variant guards those branches with try/except. -/
theorem extract_returns_string_amended (f : FileModel)
    (h1 : pyEndsWith (pyLower f.name) ".pdf" = true → exceptOk f.pdfParse = true)
    (h2 : pyEndsWith (pyLower f.name) ".docx" = true → exceptOk f.docxParse = true) :
    exceptOk (get_file_text_app (some f)) = true ∧
    exceptOk (get_file_text_api (some f)) = true := by
  cases htxt : pyEndsWith (pyLower f.name) ".txt" with
  | true =>
    constructor <;> simp [get_file_text_app, get_file_text_api, htxt, exceptOk]
  | false =>
    cases hpdf : pyEndsWith (pyLower f.name) ".pdf" with
    | true =>
      have hok := h1 hpdf
      cases hpp : f.pdfParse with
      | error d => rw [hpp] at hok; simp [exceptOk] at hok
      | ok pages =>
        constructor <;>
          simp [get_file_text_app, get_file_text_api, htxt, hpdf, hpp, exceptOk]
    | false =>
      cases hdocx : pyEndsWith (pyLower f.name) ".docx" with
      | true =>
        have hok := h2 hdocx
        cases hdd : f.docxParse with
        | error d => rw [hdd] at hok; simp [exceptOk] at hok
        | ok paras =>
          constructor <;>
            simp [get_file_text_app, get_file_text_api, htxt, hpdf, hdocx, hdd, exceptOk]
      | false =>
        cases hhtml : (pyEndsWith (pyLower f.name) ".html" ||
            pyEndsWith (pyLower f.name) ".htm") with
        | true =>
          constructor <;>
            simp [get_file_text_app, get_file_text_api, htxt, hpdf, hdocx, hhtml, exceptOk]
        | false =>
          constructor <;>
            simp [get_file_text_app, get_file_text_api, htxt, hpdf, hdocx, hhtml, exceptOk]

/-- C1 witness: the well-formed single-page PDF doc.pdf. -/
theorem extract_returns_string_amended_witness :
    exceptOk (get_file_text_app (some filePdfA)) = true ∧
    exceptOk (get_file_text_api (some filePdfA)) = true :=
  extract_returns_string_amended filePdfA (fun _ => rfl) (fun h => absurd h (by decide))

/-- C1: counterexample — broken.pdf, a .pdf upload whose bytes pypdf
rejects: both variants propagate the parser exception instead of
returning a string. -/
theorem extract_raises_on_malformed_pdf :
    get_file_text_app (some filePdfBad) =
      Except.error "PdfReadError: EOF marker not found" ∧
    get_file_text_api (some filePdfBad) =
      Except.error "PdfReadError: EOF marker not found" :=
  ⟨rfl, rfl⟩

/-- C2 (amended): on network error, non-2xx status or malformed JSON,
both variants return an "Error <calling/talking to> <provider>:
<details>" string and let no exception escape; app_api.py does the same
when a JSON-object body lacks the expected "choices" field, but app.py
returns the empty string (its .get defaults), not an error string, when
a JSON-object body lacks the "message"/"content" fields. -/
theorem ask_failure_error_string_amended :
    (∀ m q c (net : Json → HttpOutcome),
        (net (requestDataApp m q c)).isFailure = true →
        errorStringFrom (askOllamaApp m q c net) "Error talking to Ollama: " = true) ∧
    (∀ m q c k (s v : Option String) (net : String → Json → HttpOutcome),
        resolveKey s v = some k →
        (net k (requestDataApi m q c)).isFailure = true →
        errorStringFrom (askOllamaApi m q c s v net)
          "Error calling hosted LLM API: " = true) ∧
    (∀ m q c k (s v : Option String) (net : String → Json → HttpOutcome)
        (fs : List (String × Json)),
        resolveKey s v = some k →
        net k (requestDataApi m q c) =
          HttpOutcome.response 200 (Except.ok (Json.obj fs)) →
        fs.lookup "choices" = none →
        errorStringFrom (askOllamaApi m q c s v net)
          "Error calling hosted LLM API: " = true) ∧
    (∀ m q c (net : Json → HttpOutcome) (fs : List (String × Json)),
        net (requestDataApp m q c) =
          HttpOutcome.response 200 (Except.ok (Json.obj fs)) →
        fs.lookup "message" = none →
        askOllamaApp m q c net = Json.str "") := by
  refine ⟨?_, ?_, ?_, ?_⟩
  · intro m q c net hf
    cases ho : net (requestDataApp m q c) with
    | netError d =>
      rw [askOllamaApp_of_tryError m q c d net (by rw [ho]; rfl)]
      simp [errorStringFrom, pyStartsWith_append]
    | response st body =>
      rw [ho] at hf
      simp only [HttpOutcome.isFailure, Bool.or_eq_true] at hf
      by_cases hr : 400 ≤ st ∧ st < 600
      · rw [askOllamaApp_of_tryError m q c _ net
          (by rw [ho]; exact (askTry_status_error st body hr).1)]
        simp [errorStringFrom, pyStartsWith_append]
      · obtain ⟨d, hd⟩ : ∃ d, body = Except.error d := by
          rcases hf with hf1 | hf2
          · exact absurd (of_decide_eq_true hf1) hr
          · cases body with
            | error d => exact ⟨d, rfl⟩
            | ok j => simp at hf2
        subst hd
        rw [askOllamaApp_of_tryError m q c d net
          (by rw [ho]; exact (askTry_body_error st d hr).1)]
        simp [errorStringFrom, pyStartsWith_append]
  · intro m q c k s v net hk hf
    cases ho : net k (requestDataApi m q c) with
    | netError d =>
      rw [askOllamaApi_of_tryError m q c k d s v net hk (by rw [ho]; rfl)]
      simp [errorStringFrom, pyStartsWith_append]
    | response st body =>
      rw [ho] at hf
      simp only [HttpOutcome.isFailure, Bool.or_eq_true] at hf
      by_cases hr : 400 ≤ st ∧ st < 600
      · rw [askOllamaApi_of_tryError m q c k _ s v net hk
          (by rw [ho]; exact (askTry_status_error st body hr).2)]
        simp [errorStringFrom, pyStartsWith_append]
      · obtain ⟨d, hd⟩ : ∃ d, body = Except.error d := by
          rcases hf with hf1 | hf2
          · exact absurd (of_decide_eq_true hf1) hr
          · cases body with
            | error d => exact ⟨d, rfl⟩
            | ok j => simp at hf2
        subst hd
        rw [askOllamaApi_of_tryError m q c k d s v net hk
          (by rw [ho]; exact (askTry_body_error st d hr).2)]
        simp [errorStringFrom, pyStartsWith_append]
  · intro m q c k s v net fs hk ho hl
    rw [askOllamaApi_of_tryError m q c k "KeyError: choices" s v net hk
      (by rw [ho]; exact askTryApi_missing_choices 200 fs (by decide) hl)]
    decide
  · intro m q c net fs ho hl
    refine askOllamaApp_of_tryOk m q c (Json.str "") net ?_
    rw [ho]
    simp only [askTryApp, raiseForStatus_ok 200 (by decide), except_bind_ok,
      jsonGetD, hl, List.lookup_nil]

/-- C2 witness: a refused connection makes app.py's ask_ollama return an
"Error talking to Ollama: ..." string. -/
theorem ask_failure_error_string_amended_witness :
    errorStringFrom (askOllamaApp "llama3.2:1b" "q" ""
      (fun _ => HttpOutcome.netError "connection refused"))
      "Error talking to Ollama: " = true :=
  ask_failure_error_string_amended.1 "llama3.2:1b" "q" ""
    (fun _ => HttpOutcome.netError "connection refused") rfl

/-- C2: counterexample — app.py: a 200 response whose JSON body is a
dict without the expected answer fields makes ask_ollama return the
empty string (its .get defaults), which is not an "Error ..." string as
the claim requires. -/
theorem ask_app_missing_fields_empty :
    askOllamaApp "llama3.2:1b" "q" ""
      (fun _ => HttpOutcome.response 200 (Except.ok (Json.obj []))) = Json.str "" ∧
    pyStartsWith "" "Error" = false :=
  ⟨rfl, by decide⟩

/-- C4 (amended): in app_api.py, when neither credential source yields a
usable key (absent, swallowed-exception, or empty in both the secret
store and the environment), ask_ollama returns the fixed instructional
message naming the API key, and the result is independent of the network
function — no call is issued; app.py, by contrast, has no credential
logic at all and always performs the HTTP call (see the
counterexample). -/
theorem missing_key_error_api (m q c : String) (s v : Option String)
    (net : String → Json → HttpOutcome) (h : resolveKey s v = none) :
    askOllamaApi m q c s v net = Json.str keyErrMsgApi ∧
    pyContains keyErrMsgApi "API key" = true := by
  constructor
  · simp only [askOllamaApi, h]
  · decide

/-- C4 witness: an empty secret-store entry and no environment variable;
the network function is irrelevant. -/
theorem missing_key_error_api_witness :
    askOllamaApi "meta-llama/llama-3.1-8b-instruct" "q" "c" (some "") none
      (fun _ _ => HttpOutcome.netError "unreachable") = Json.str keyErrMsgApi ∧
    pyContains keyErrMsgApi "API key" = true :=
  missing_key_error_api "meta-llama/llama-3.1-8b-instruct" "q" "c" (some "") none
    (fun _ _ => HttpOutcome.netError "unreachable") rfl

/-- C4: counterexample — app.py's ask_ollama consults no credential
source: with no key configured anywhere its result still varies with the
network outcome (so the HTTP call is issued), and on success it returns
the reply "hi", not an API-key instruction. -/
theorem ask_app_ignores_credentials :
    askOllamaApp "llama3.2:1b" "q" "" (fun _ => HttpOutcome.netError "net down") =
      Json.str "Error talking to Ollama: net down" ∧
    askOllamaApp "llama3.2:1b" "q" ""
      (fun _ => HttpOutcome.response 200
        (Except.ok (Json.obj [("message", Json.obj [("content", Json.str "hi")])]))) =
      Json.str "hi" ∧
    pyContains "hi" "API key" = false ∧
    Json.str "hi" ≠ Json.str "Error talking to Ollama: net down" := by
  refine ⟨rfl, rfl, by decide, ?_⟩
  intro hcontra
  injection hcontra with h1
  exact absurd h1 (by decide)

/-- C8: the assembled context is the concatenation, in upload order, of
one labelled segment per file — the "--- <name> ---" header followed by
that file's extracted text (app.py prefixes each segment with one
newline, app_api.py with two). -/
theorem context_assembly (l : List FileModel)
    (h : ∀ f ∈ l, exceptOk (get_file_text_app (some f)) = true)
    (h2 : ∀ f ∈ l, exceptOk (get_file_text_api (some f)) = true) :
    buildContextApp l = Except.ok (String.join (l.map segApp)) ∧
    buildContextApi l = Except.ok (String.join (l.map segApi)) := by
  constructor
  · unfold buildContextApp
    rw [buildContextApp_go l "" h, String.empty_append]
  · unfold buildContextApi
    rw [buildContextApi_go l "" h2, String.empty_append]

/-- C8 witness: the files a.txt (text "X") and b.txt (text "Y") yield
both labelled sections in upload order. -/
theorem context_assembly_witness :
    buildContextApp [fileTxtA, fileTxtB] =
      Except.ok "\n--- a.txt ---\nX\n--- b.txt ---\nY" ∧
    buildContextApi [fileTxtA, fileTxtB] =
      Except.ok "\n\n--- a.txt ---\nX\n\n--- b.txt ---\nY" :=
  context_assembly [fileTxtA, fileTxtB] (by decide) (by decide)

/-- C9: the request body is a deterministic function of (model,
question, context): app.py always sends requestDataApp applied to these
inputs, and any two app_api.py invocations with identical inputs that
get past credential resolution send the same body, even under different
credential configurations. -/
theorem request_body_deterministic (m q c : String) (s v s2 v2 : Option String)
    (b b2 : Json) (h : bodySentApi m q c s v = some b)
    (h2 : bodySentApi m q c s2 v2 = some b2) :
    b = b2 ∧ bodySentApp m q c = requestDataApp m q c := by
  constructor
  · simp only [bodySentApi] at h h2
    split at h
    · cases h
    · split at h2
      · cases h2
      · rw [← Option.some.inj h, ← Option.some.inj h2]
  · rfl

/-- C9 witness: a secret-store key in one run and an environment key in
the other produce the identical request body. -/
theorem request_body_deterministic_witness :
    requestDataApi "meta-llama/llama-3.1-8b-instruct" "q" "c" =
      requestDataApi "meta-llama/llama-3.1-8b-instruct" "q" "c" ∧
    bodySentApp "meta-llama/llama-3.1-8b-instruct" "q" "c" =
      requestDataApp "meta-llama/llama-3.1-8b-instruct" "q" "c" :=
  request_body_deterministic "meta-llama/llama-3.1-8b-instruct" "q" "c"
    (some "sk-or-key-one") none none (some "sk-or-key-two")
    (requestDataApi "meta-llama/llama-3.1-8b-instruct" "q" "c")
    (requestDataApi "meta-llama/llama-3.1-8b-instruct" "q" "c") rfl rfl
